import Mathlib

/-!
Shallow embedding of `src/hands_off/main2.py`, a single-session chainlit
chatbot front-end with a triage agent that can hand off to billing and
refund delegate agents.

Modelling conventions:
* Python objects become Lean structures with the same field names.
* The chainlit user session (keys "agent", "config", "chat_history") becomes
  the `SessionState` structure.
* Every externally visible action (sending or updating a UI message,
  invoking the external runner, writing a session key, printing a log line,
  appending to the chat-history list) is recorded as an `Event`; handlers
  return the successor `SessionState` together with the ordered event trace.
* The outcome of the external `Runner.run` call is a parameter of type
  `Except String String`: `Except.ok out` is a normal return whose
  `final_output` is `out`, `Except.error e` is a raised exception whose
  `str(e)` is `e`.
* Python list aliasing matters in `main`: `cl.user_session.get("chat_history")
  or []` yields the stored list itself when that list is non-empty (truthy),
  but a fresh empty list when the stored list is empty (falsy).  In-place
  `append` on the aliased list is visible in the session store even when
  `cl.user_session.set` never runs; on the fresh list it is not.  `mainStep`
  encodes exactly this.
-/

namespace HandsOff

/-- The `AsyncOpenAI` client constructed in `start` (main2.py lines 24-27). -/
structure AsyncOpenAI where
  api_key : String
  base_url : String
deriving DecidableEq

/-- The `OpenAIChatCompletionsModel` constructed in `start` (lines 29-32). -/
structure OpenAIChatCompletionsModel where
  model : String
  openai_client : AsyncOpenAI
deriving DecidableEq

/-- The `RunConfig` constructed in `start` (lines 34-38). -/
structure RunConfig where
  model : OpenAIChatCompletionsModel
  model_provider : AsyncOpenAI
  tracing_disabled : Bool
deriving DecidableEq

/-- Role of a chat-history entry: the dict key "role" takes only the values
"user" and "assistant" in main2.py (lines 111 and 124). -/
inductive Role where
  | user
  | assistant
deriving DecidableEq

/-- One history dict: Python dicts of the shape
(role plus content) built at main2.py lines 111 and 124. -/
structure ChatHistoryEntry where
  role : Role
  content : String
deriving DecidableEq

/-- An `Agent` (the `agents.Agent` constructor calls at lines 61-84).
`handoffs` models the `handoff(target, on_handoff=lambda ctx:
on_handoff(captured, ctx))` wrappers: each element is the pair
(target agent, agent captured by the notifier closure). -/
inductive Agent where
  | mk (name : String) (instructions : String)
      (model : OpenAIChatCompletionsModel) (handoffs : List (Agent × Agent))

/-- Accessor for the `name` field of an `Agent`. -/
def Agent.name : Agent → String
  | .mk n _ _ _ => n

/-- Accessor for the `instructions` field of an `Agent`. -/
def Agent.instructions : Agent → String
  | .mk _ i _ _ => i

/-- Accessor for the `model` field of an `Agent`. -/
def Agent.model : Agent → OpenAIChatCompletionsModel
  | .mk _ _ m _ => m

/-- Accessor for the `handoffs` field of an `Agent`. -/
def Agent.handoffs : Agent → List (Agent × Agent)
  | .mk _ _ _ hs => hs

/-- Externally visible actions of the handlers, in program order.
`sendMessage` is `cl.Message(...).send()` (author `none` when the `author`
keyword is not passed); `updateMessage` is mutating `thinking_msg.content`
followed by `thinking_msg.update()`; `invokeRunner` is the
`Runner.run(agent, history, run_config=config)` call recording the exact
arguments read from the session; `appendUser` and `appendAssistant` are the
in-place `history.append` calls; `setAgent`, `setConfig` and `setHistory`
are the `cl.user_session.set` calls; `printLog` is `print` of a plain
string; `logHistory` is the `print` of the updated history at line 129,
recorded structurally. -/
inductive Event where
  | sendMessage (content : String) (author : Option String)
  | updateMessage (content : String)
  | invokeRunner (agent : Agent) (history : List ChatHistoryEntry) (cfg : RunConfig)
  | appendUser (entry : ChatHistoryEntry)
  | appendAssistant (entry : ChatHistoryEntry)
  | setAgent (a : Agent)
  | setConfig (c : RunConfig)
  | setHistory (h : List ChatHistoryEntry)
  | printLog (line : String)
  | logHistory (h : List ChatHistoryEntry)

/-- The chainlit user session after `start` has run: keys "agent", "config"
and "chat_history" (main2.py lines 89-91). -/
structure SessionState where
  agent : Agent
  config : RunConfig
  chat_history : List ChatHistoryEntry

/-- Python `str.lower()` as used on agent names at line 52. -/
def pyLower (s : String) : String := ⟨s.data.map Char.toLower⟩

/-- The string `sub` occurs contiguously inside `s`. -/
def containsStr (s sub : String) : Prop :=
  ∃ pre post : String, s = pre ++ (sub ++ post)

/-- Message of the `ValueError` raised at main2.py line 15. -/
def geminiKeyErrorMsg : String :=
  "❌ GEMINI_API_KEY is not set. Please define it in your .env file."

/-- Python truthiness of an `os.getenv` result: `None` (unset) and the empty
string are falsy, every other string is truthy (line 14, `if not
gemini_api_key`). -/
def truthy : Option String → Bool
  | none => false
  | some s => !s.isEmpty

/-- Module-level key check (main2.py lines 13-15): `os.getenv("GEMINI_API_KEY")`
followed by `if not gemini_api_key: raise ValueError(...)`.  The argument is
the environment value (`none` when the variable is unset); the result is the
key, or the raised configuration error. -/
def gemini_api_key (env : Option String) : Except String String :=
  if truthy env then Except.ok (env.getD "") else Except.error geminiKeyErrorMsg

/-- The `AsyncOpenAI(...)` construction at lines 24-27. -/
def external_client (api_key : String) : AsyncOpenAI :=
  { api_key := api_key,
    base_url := "https://generativelanguage.googleapis.com/v1beta/openai/" }

/-- The `OpenAIChatCompletionsModel(...)` construction at lines 29-32. -/
def model (api_key : String) : OpenAIChatCompletionsModel :=
  { model := "gemini-2.5-flash", openai_client := external_client api_key }

/-- The `RunConfig(...)` construction at lines 34-38. -/
def config (api_key : String) : RunConfig :=
  { model := model api_key,
    model_provider := external_client api_key,
    tracing_disabled := true }

/-- The `on_handoff` callback (lines 43-56): three `print` lines, then one
UI message with author "System" announcing the handoff target. -/
def on_handoff (agent : Agent) : List Event :=
  [Event.printLog "--------------------------------",
   Event.printLog ("Handing off to " ++ agent.name ++ "..."),
   Event.printLog "--------------------------------",
   Event.sendMessage
     ("🔄 **Handing off to " ++ agent.name ++
       "...**\n\nI\x27m transferring your request to our " ++
       pyLower agent.name ++ " who will be able to better assist you.")
     (some "System")]

/-- The `billing_agent` construction at lines 61-65. -/
def billing_agent (m : OpenAIChatCompletionsModel) : Agent :=
  Agent.mk "Billing Agent" "You are a billing agent." m []

/-- The `refund_agent` construction at lines 67-71. -/
def refund_agent (m : OpenAIChatCompletionsModel) : Agent :=
  Agent.mk "Refund Agent" "You are a refund agent." m []

/-- The `triage_agent` construction at lines 76-84: two handoff wrappers, each
target wired to a notifier closure capturing that same target descriptor. -/
def triage_agent (m : OpenAIChatCompletionsModel) : Agent :=
  Agent.mk "Triage Agent" "You are a triage agent." m
    [(billing_agent m, billing_agent m), (refund_agent m, refund_agent m)]

/-- The `start` chat-start handler (lines 20-93), given the module-level key.
It builds the client, model, config and agents, overwrites the three session
keys with the triage agent, the config and an empty history (whatever the
prior state held), and sends the static welcome message.  The prior state is
never read. -/
def start (api_key : String) (_st : SessionState) : SessionState × List Event :=
  let m := model api_key
  let cfg := config api_key
  let triage := triage_agent m
  ({ agent := triage, config := cfg, chat_history := [] },
   [Event.setAgent triage,
    Event.setConfig cfg,
    Event.setHistory [],
    Event.sendMessage
      "👋 Welcome to the Panaversity AI Assistant! How can I help you today?"
      none])

/-- Full startup: module import runs the environment check before any handler
can run; only when it passes does the chat-start handler execute.  An error
result carries no state and no events: no agent is constructed and nothing is
sent to the UI. -/
def startup (env : Option String) (st : SessionState) :
    Except String (SessionState × List Event) :=
  match gemini_api_key env with
  | Except.error e => Except.error e
  | Except.ok key => Except.ok (start key st)

/-- The `main` message handler (lines 100-134) for one turn.  `text` is
`message.content`; `result` is the outcome of `Runner.run`.

Aliasing (line 110): `history = cl.user_session.get("chat_history") or []`
binds `history` to the stored list itself when that list is non-empty, and to
a fresh empty list when the stored list is empty (Python truthiness).  The
in-place `history.append` at line 111 therefore mutates the stored history
exactly when the stored history was non-empty.  On success the explicit
`cl.user_session.set("chat_history", history)` at line 127 stores the grown
list in either case; on error no `set` runs, so the store keeps the aliased
(mutated) list when it was non-empty and the untouched empty list otherwise. -/
def mainStep (st : SessionState) (text : String)
    (result : Except String String) : SessionState × List Event :=
  let aliased := !st.chat_history.isEmpty
  let history1 := st.chat_history ++ [⟨Role.user, text⟩]
  match result with
  | Except.ok final_output =>
      let history2 := history1 ++ [⟨Role.assistant, final_output⟩]
      ({ st with chat_history := history2 },
       [Event.sendMessage "🤔 Thinking..." none,
        Event.appendUser ⟨Role.user, text⟩,
        Event.invokeRunner st.agent history1 st.config,
        Event.updateMessage final_output,
        Event.appendAssistant ⟨Role.assistant, final_output⟩,
        Event.setHistory history2,
        Event.logHistory history2])
  | Except.error e =>
      ({ st with chat_history := if aliased then history1 else st.chat_history },
       [Event.sendMessage "🤔 Thinking..." none,
        Event.appendUser ⟨Role.user, text⟩,
        Event.invokeRunner st.agent history1 st.config,
        Event.updateMessage ("⚠️ Error: " ++ e),
        Event.printLog ("❌ Error: " ++ e)])

/-- A concrete post-start session state with empty history. -/
def testState : SessionState :=
  { agent := triage_agent (model "k"),
    config := config "k",
    chat_history := [] }

/-- A concrete session state whose history already holds one entry. -/
def testState1 : SessionState :=
  { agent := triage_agent (model "k"),
    config := config "k",
    chat_history := [⟨Role.user, "earlier"⟩] }

/-- C1 counterexample: at a state whose stored history is empty, a failed turn
leaves the stored history unchanged — it does not grow by the user entry, so
the history does not increase by exactly one entry. -/
theorem C1_counterexample :
    (mainStep testState "hi" (Except.error "boom")).1.chat_history =
      testState.chat_history ∧
    (mainStep testState "hi" (Except.error "boom")).1.chat_history ≠
      testState.chat_history ++ [⟨Role.user, "hi"⟩] := by
  exact ⟨rfl, by decide⟩

/-- C1 (amended): for every turn in which the runner raises, provided the
stored history was non-empty before the turn, the stored history grows by
exactly the one user entry for that turn and no assistant entry. -/
theorem C1_failed_turn_nonempty_history (st : SessionState) (text e : String)
    (h : st.chat_history ≠ []) :
    (mainStep st text (Except.error e)).1.chat_history =
      st.chat_history ++ [⟨Role.user, text⟩] := by
  cases hh : st.chat_history with
  | nil => exact absurd hh h
  | cons a l => simp [mainStep, hh]

/-- C1 witness: the amended statement at a concrete non-empty-history state. -/
theorem C1_failed_turn_nonempty_history_witness :
    (mainStep testState1 "hi" (Except.error "boom")).1.chat_history =
      testState1.chat_history ++ [⟨Role.user, "hi"⟩] :=
  C1_failed_turn_nonempty_history testState1 "hi" "boom" (by decide)

/-- C2: for every turn in which the runner succeeds, the stored history grows
by exactly two entries, the user entry with the incoming text followed by the
assistant entry with the final output, in that order. -/
theorem C2_successful_turn_appends_user_then_assistant
    (st : SessionState) (text out : String) :
    (mainStep st text (Except.ok out)).1.chat_history =
      st.chat_history ++ [⟨Role.user, text⟩, ⟨Role.assistant, out⟩] := by
  simp [mainStep]

/-- C3 counterexample: with the environment variable set to the empty string
(set, but falsy in Python), startup still raises the configuration error
instead of proceeding. -/
theorem C3_counterexample :
    startup (some "") testState = Except.error geminiKeyErrorMsg := rfl

/-- C3 (amended): if the key variable is unset or empty, startup raises the
configuration error and stops before any agent is constructed or any message
is sent (the error result carries no events); if it is set to a non-empty
value, startup proceeds to run the chat-start handler. -/
theorem C3_startup_key_check (env : Option String) (st : SessionState) :
    (truthy env = false → startup env st = Except.error geminiKeyErrorMsg) ∧
    (truthy env = true → ∃ key, startup env st = Except.ok (start key st)) := by
  refine ⟨fun h => ?_, fun h => ⟨env.getD "", ?_⟩⟩ <;>
    simp [startup, gemini_api_key, h]

/-- C3 witness: the unset case at a concrete state. -/
theorem C3_startup_key_check_witness :
    startup none testState = Except.error geminiKeyErrorMsg :=
  (C3_startup_key_check none testState).1 rfl

/-- C4: on every failed turn the handler rewrites the placeholder content to
the error notice, which starts with the text marked by the warning sign and
contains the raised description, and prints the error log line. -/
theorem C4_error_notice_and_log (st : SessionState) (text e : String) :
    Event.updateMessage ("⚠️ Error: " ++ e) ∈
      (mainStep st text (Except.error e)).2 ∧
    (∃ rest, "⚠️ Error: " ++ e = "⚠️ Error:" ++ rest) ∧
    containsStr ("⚠️ Error: " ++ e) e ∧
    Event.printLog ("❌ Error: " ++ e) ∈ (mainStep st text (Except.error e)).2 := by
  refine ⟨by simp [mainStep], ⟨" " ++ e, ?_⟩, ⟨"⚠️ Error: ", "", ?_⟩,
    by simp [mainStep]⟩
  · have h : ("⚠️ Error: " : String) = "⚠️ Error:" ++ " " := rfl
    rw [h, String.append_assoc]
  · rw [String.append_empty]

/-- C5: for every incoming message and every runner outcome, the trace starts
with exactly: the thinking placeholder is sent, the user entry is appended,
and only then the runner is invoked with the session agent, the full history
including the just-appended user entry, and the session config. -/
theorem C5_handler_step_order (st : SessionState) (text : String)
    (result : Except String String) :
    ∃ rest, (mainStep st text result).2 =
      Event.sendMessage "🤔 Thinking..." none ::
      Event.appendUser ⟨Role.user, text⟩ ::
      Event.invokeRunner st.agent (st.chat_history ++ [⟨Role.user, text⟩])
        st.config :: rest := by
  cases result <;> exact ⟨_, rfl⟩

/-- C6: on every successful turn the placeholder content is replaced with the
final output of the runner, and the grown history (user then assistant entry)
is persisted into the session state. -/
theorem C6_success_updates_placeholder_and_persists
    (st : SessionState) (text out : String) :
    Event.updateMessage out ∈ (mainStep st text (Except.ok out)).2 ∧
    Event.setHistory
        (st.chat_history ++ [⟨Role.user, text⟩, ⟨Role.assistant, out⟩]) ∈
      (mainStep st text (Except.ok out)).2 ∧
    (mainStep st text (Except.ok out)).1.chat_history =
      st.chat_history ++ [⟨Role.user, text⟩, ⟨Role.assistant, out⟩] := by
  refine ⟨by simp [mainStep], by simp [mainStep], by simp [mainStep]⟩

/-- C7: the notifier, for any agent, prints a log line naming the target and
emits one UI message with author "System" whose content contains the phrase
naming the target; and the triage delegate list is exactly billing then
refund, each wired to the notifier closure capturing its own descriptor. -/
theorem C7_handoff_notifier_and_wiring (m : OpenAIChatCompletionsModel)
    (a : Agent) :
    (triage_agent m).handoffs =
      [(billing_agent m, billing_agent m), (refund_agent m, refund_agent m)] ∧
    Event.printLog ("Handing off to " ++ a.name ++ "...") ∈ on_handoff a ∧
    ∃ c, Event.sendMessage c (some "System") ∈ on_handoff a ∧
      containsStr c ("Handing off to " ++ a.name ++ "...") := by
  refine ⟨rfl, by simp [on_handoff],
    ⟨"🔄 **Handing off to " ++ a.name ++
        "...**\n\nI\x27m transferring your request to our " ++
        pyLower a.name ++ " who will be able to better assist you.",
      by simp [on_handoff], ?_⟩⟩
  refine ⟨"🔄 **",
    "**\n\nI\x27m transferring your request to our " ++ pyLower a.name ++
      " who will be able to better assist you.", ?_⟩
  have h1 : ("🔄 **Handing off to " : String) = "🔄 **" ++ "Handing off to " :=
    rfl
  have h2 : ("...**\n\nI\x27m transferring your request to our " : String) =
      "..." ++ "**\n\nI\x27m transferring your request to our " := rfl
  rw [h1, h2]
  simp only [String.append_assoc]

/-- C8: running the chat-start handler from any prior session state writes the
triage agent, the constructed config and an empty history; its result does not
depend on the prior state at all, and re-running it is idempotent. -/
theorem C8_start_idempotent_reset (api_key : String) (st st2 : SessionState) :
    (start api_key st).1 =
      { agent := triage_agent (model api_key),
        config := config api_key,
        chat_history := [] } ∧
    start api_key st = start api_key st2 ∧
    start api_key (start api_key st).1 = start api_key st :=
  ⟨rfl, rfl, rfl⟩

/-- C9 counterexample: the chat-start handler is an operation of the session
that discards (removes) existing history entries — from a state with one
stored entry it leaves an empty history, which is not an extension of the
earlier state. -/
theorem C9_counterexample :
    testState1.chat_history ≠ [] ∧
    (start "k" testState1).1.chat_history = [] :=
  ⟨by decide, rfl⟩

/-- C9 (amended): every message-handler turn only extends the stored history
at its end, never reordering, removing or modifying existing entries: a
successful turn appends exactly the user and assistant entries; a failed turn
appends exactly the user entry when the prior stored history is non-empty and
nothing when it is empty; the chat-start handler, by contrast, resets the
history to empty, discarding prior entries. -/
theorem C9_history_extension (st : SessionState) (text : String)
    (result : Except String String) :
    (mainStep st text result).1.chat_history =
      st.chat_history ++
        (match result, st.chat_history with
         | Except.ok out, _ => [⟨Role.user, text⟩, ⟨Role.assistant, out⟩]
         | Except.error _, [] => []
         | Except.error _, _ :: _ => [⟨Role.user, text⟩]) := by
  cases result <;> cases h : st.chat_history <;> simp [mainStep, h]

/-- C10: one turn of the message handler reads but never writes the session
agent and config: both are unchanged in the resulting state, and the trace
holds no write event for either key — only the chat history may be written. -/
theorem C10_handler_frame (st : SessionState) (text : String)
    (result : Except String String) :
    (mainStep st text result).1.agent = st.agent ∧
    (mainStep st text result).1.config = st.config ∧
    (∀ a, Event.setAgent a ∉ (mainStep st text result).2) ∧
    (∀ c, Event.setConfig c ∉ (mainStep st text result).2) := by
  cases result <;> simp [mainStep]

end HandsOff
